import Mathlib

/-!
Verification development for the UMDF binding layer
(`cpp_interface/umdf_python_interface.cpp` and
`cpp_interface/pybind11_bridge.cpp`), together with a model of the
engine operations the bindings delegate to.  Engine code (`Writer`,
`Reader` from the external UMDF library) is not part of this
repository; where a property depends on it, the definition is marked
`Modelled from the spec:` and follows the specification's words.
-/

namespace UMDF

/-- JSON values as produced by the `nlohmann::json` parser used by
`umdf_python_interface.cpp`.  Numbers keep their digit sequences; the
binding code never inspects parsed values, only whether parsing
succeeds. -/
inductive Json where
  | null
  | boolean (b : Bool)
  | number (neg : Bool) (intDigits : List Nat) (fracDigits : List Nat)
      (expNeg : Bool) (expDigits : List Nat)
  | str (s : String)
  | arr (elems : List Json)
  | obj (fields : List (String × Json))

/-- JSON insignificant whitespace (space, tab, line feed, carriage return). -/
def isJsonWs (c : Char) : Bool :=
  c = ' ' ∨ c = Char.ofNat 9 ∨ c = Char.ofNat 10 ∨ c = Char.ofNat 13

/-- Drop leading JSON whitespace. -/
def skipWs : List Char → List Char
  | [] => []
  | c :: cs => if isJsonWs c then skipWs cs else c :: cs

/-- Value of a hexadecimal digit. -/
def hexVal (c : Char) : Option Nat :=
  if c.isDigit then some (c.toNat - 48)
  else if 'a' ≤ c ∧ c ≤ 'f' then some (c.toNat - 87)
  else if 'A' ≤ c ∧ c ≤ 'F' then some (c.toNat - 55)
  else none

/-- Decoding of a single-character JSON escape. -/
def escBase (e : Char) : Option Char :=
  if e = '"' ∨ e = '\\' ∨ e = '/' then some e
  else if e = 'b' then some (Char.ofNat 8)
  else if e = 'f' then some (Char.ofNat 12)
  else if e = 'n' then some (Char.ofNat 10)
  else if e = 'r' then some (Char.ofNat 13)
  else if e = 't' then some (Char.ofNat 9)
  else none

/-- Parse the rest of a JSON string literal (opening quote already
consumed); returns the decoded characters and the remaining input. -/
def parseStringRest : Nat → List Char → Option (List Char × List Char)
  | 0, _ => none
  | _, [] => none
  | fuel + 1, c :: cs =>
    if c = '"' then some ([], cs)
    else if c = '\\' then
      match cs with
      | [] => none
      | e :: cs2 =>
        match escBase e with
        | some d => (parseStringRest fuel cs2).map (fun r => (d :: r.1, r.2))
        | none =>
          if e = 'u' then
            match cs2 with
            | h1 :: h2 :: h3 :: h4 :: cs3 =>
              match hexVal h1, hexVal h2, hexVal h3, hexVal h4 with
              | some a, some b, some c4, some d4 =>
                (parseStringRest fuel cs3).map
                  (fun r => (Char.ofNat (a * 4096 + b * 256 + c4 * 16 + d4) :: r.1, r.2))
              | _, _, _, _ => none
            | _ => none
          else none
    else if c.toNat < 32 then none
    else (parseStringRest fuel cs).map (fun r => (c :: r.1, r.2))

/-- Take a maximal run of decimal digits. -/
def takeDigits : List Char → List Nat × List Char
  | [] => ([], [])
  | c :: cs =>
    if c.isDigit then
      let r := takeDigits cs
      ((c.toNat - 48) :: r.1, r.2)
    else ([], c :: cs)

/-- Parse the optional exponent part of a JSON number and build the value. -/
def parseExpPart (neg : Bool) (ints fracs : List Nat) (cs : List Char) :
    Option (Json × List Char) :=
  match cs with
  | [] => some (.number neg ints fracs false [], [])
  | c :: cs1 =>
    if c = 'e' ∨ c = 'E' then
      let signRest : Bool × List Char :=
        match cs1 with
        | [] => (false, [])
        | s :: r => if s = '+' then (false, r) else if s = '-' then (true, r) else (false, cs1)
      let ds := takeDigits signRest.2
      if ds.1 = [] then none else some (.number neg ints fracs signRest.1 ds.1, ds.2)
    else some (.number neg ints fracs false [], c :: cs1)

/-- Parse a JSON number (RFC 8259 grammar: optional minus, integer part
without redundant leading zero, optional fraction, optional exponent). -/
def parseNumber (cs : List Char) : Option (Json × List Char) :=
  let signRest : Bool × List Char :=
    match cs with
    | [] => (false, [])
    | c :: r => if c = '-' then (true, r) else (false, cs)
  match signRest.2 with
  | [] => none
  | c :: _ =>
    if c.isDigit then
      let ints := takeDigits signRest.2
      if 1 < ints.1.length ∧ ints.1.headD 1 = 0 then none
      else
        match ints.2 with
        | [] => parseExpPart signRest.1 ints.1 [] []
        | d :: cs3 =>
          if d = '.' then
            let fr := takeDigits cs3
            if fr.1 = [] then none else parseExpPart signRest.1 ints.1 fr.1 fr.2
          else parseExpPart signRest.1 ints.1 [] (d :: cs3)
    else none

/-- Left brace character, written by code point. -/
def lbraceC : Char := Char.ofNat 123

/-- Right brace character, written by code point. -/
def rbraceC : Char := Char.ofNat 125

mutual

/-- Parse one JSON value. -/
def parseValue (fuel : Nat) (cs : List Char) : Option (Json × List Char) :=
  match fuel with
  | 0 => none
  | fuel + 1 =>
    match skipWs cs with
    | [] => none
    | c :: rest =>
      if c = 'n' then
        match rest with
        | 'u' :: 'l' :: 'l' :: r => some (.null, r)
        | _ => none
      else if c = 't' then
        match rest with
        | 'r' :: 'u' :: 'e' :: r => some (.boolean true, r)
        | _ => none
      else if c = 'f' then
        match rest with
        | 'a' :: 'l' :: 's' :: 'e' :: r => some (.boolean false, r)
        | _ => none
      else if c = '"' then
        (parseStringRest (rest.length + 1) rest).map (fun r => (.str (String.mk r.1), r.2))
      else if c = '[' then
        match skipWs rest with
        | [] => none
        | c2 :: r2 =>
          if c2 = ']' then some (.arr [], r2)
          else (parseElems fuel (c2 :: r2)).map (fun r => (.arr r.1, r.2))
      else if c = lbraceC then
        match skipWs rest with
        | [] => none
        | c2 :: r2 =>
          if c2 = rbraceC then some (.obj [], r2)
          else (parseMembers fuel (c2 :: r2)).map (fun r => (.obj r.1, r.2))
      else if c = '-' ∨ c.isDigit then parseNumber (c :: rest)
      else none

/-- Parse the comma-separated elements of a JSON array, up to and
including the closing bracket. -/
def parseElems (fuel : Nat) (cs : List Char) : Option (List Json × List Char) :=
  match fuel with
  | 0 => none
  | fuel + 1 =>
    match parseValue fuel cs with
    | none => none
    | some (v, cs1) =>
      match skipWs cs1 with
      | ',' :: cs2 => (parseElems fuel cs2).map (fun r => (v :: r.1, r.2))
      | ']' :: cs2 => some ([v], cs2)
      | _ => none

/-- Parse the members of a JSON object, up to and including the
closing brace. -/
def parseMembers (fuel : Nat) (cs : List Char) : Option (List (String × Json) × List Char) :=
  match fuel with
  | 0 => none
  | fuel + 1 =>
    match skipWs cs with
    | [] => none
    | c :: cs1 =>
      if c = '"' then
        match parseStringRest (cs1.length + 1) cs1 with
        | none => none
        | some (key, cs2) =>
          match skipWs cs2 with
          | ':' :: cs3 =>
            match parseValue fuel cs3 with
            | none => none
            | some (v, cs4) =>
              match skipWs cs4 with
              | [] => none
              | c6 :: cs6 =>
                if c6 = ',' then
                  (parseMembers fuel cs6).map (fun r => ((String.mk key, v) :: r.1, r.2))
                else if c6 = rbraceC then some ([(String.mk key, v)], cs6)
                else none
          | _ => none
      else none

end

/-- Model of `nlohmann::json::parse` (strict RFC 8259 parsing of the
whole input; surrogate-pair fine points of string escapes are elided).
Returns `none` where the C++ parser throws. -/
def Json.parse (s : String) : Option Json :=
  match parseValue (2 * s.length + 2) s.data with
  | some (v, rest) => if skipWs rest = [] then some v else none
  | none => none

/-! ## Flat exported-function surface (`umdf_python_interface.cpp`) -/

/-- File-access policy of the engine writer (`FileAccessMode`). -/
inductive FileAccessMode where
  | FailIfExists
  | AllowUpdate
  | Overwrite
deriving DecidableEq

/-- One call issued by the flat surface into the external engine. -/
inductive EngineCall where
  | setFileAccessMode (mode : FileAccessMode)
  | writeNewFile (path : String)
  | readFile (path : String)
  | validate (schemaId : String) (payload : Json)

/-- Whether an engine call is a schema-validation call. -/
def isValidateCall : EngineCall → Bool
  | .validate _ _ => true
  | _ => false

/-- Observable outcome of one flat-surface function: the returned
boolean, the diagnostic lines written to `std::cerr`, and the calls
made into the external engine. -/
structure FlatResult where
  ret : Bool
  log : List String
  calls : List EngineCall

/-- `write_umdf_file` (umdf_python_interface.cpp lines 15-35): parses
`json_data`, constructs a `Writer`, sets `Overwrite` mode, calls
`writer.writeNewFile(output_path)` and returns its boolean.  The parsed
JSON value is bound to a local and never passed to the engine.  A
thrown exception is caught, logged to stderr, and turned into `false`.
The engine's `writeNewFile` is external code, supplied here as a
parameter that either returns a boolean or throws a message. -/
def write_umdf_file (writeNewFileImpl : String → Except String Bool)
    (json_data output_path : String) : FlatResult :=
  match Json.parse json_data with
  | none => ⟨false, ["Error writing UMDF file: json parse error"], []⟩
  | some _ =>
    match writeNewFileImpl output_path with
    | .ok success =>
      ⟨success, [], [.setFileAccessMode .Overwrite, .writeNewFile output_path]⟩
    | .error e =>
      ⟨false, ["Error writing UMDF file: " ++ e],
        [.setFileAccessMode .Overwrite, .writeNewFile output_path]⟩

/-- `read_umdf_file` (umdf_python_interface.cpp lines 38-53): calls
`reader.readFile(file_path)` and returns its boolean; a thrown
exception is caught, logged, and turned into `false`. -/
def read_umdf_file (readFileImpl : String → Except String Bool)
    (file_path : String) : FlatResult :=
  match readFileImpl file_path with
  | .ok success => ⟨success, [], [.readFile file_path]⟩
  | .error e => ⟨false, ["Error reading UMDF file: " ++ e], [.readFile file_path]⟩

/-- The literal string returned by `get_supported_schemas`
(umdf_python_interface.cpp lines 56-60): a static constant initialized
once from a string literal. -/
def supportedSchemasString : String :=
  "[\"patient\", \"imaging\", \"lab_results\", \"medication\"]"

/-- The four supported schema identifiers. -/
def supportedSchemas : List String := ["patient", "imaging", "lab_results", "medication"]

/-- `get_supported_schemas` reads no process or container state: it is
modelled over an arbitrary state type which it ignores, returning the
static constant. -/
def get_supported_schemas {State : Type} (_ : State) : String := supportedSchemasString

/-- `validate_schema` (umdf_python_interface.cpp lines 63-77): parses
`json_data` and returns `true` on success; the `schema_id` argument is
never consulted ("TODO: Implement actual schema validation").  A parse
exception is caught, logged to stderr, and turned into `false`.
Result: returned boolean together with the stderr lines. -/
def validate_schema (schema_id : String) (json_data : String) : Bool × List String :=
  match Json.parse json_data with
  | some _ => (true, [])
  | none => (false, ["Error validating schema: json parse error"])

/-! ## Object-binding surface (`pybind11_bridge.cpp`) -/

/-- `ModuleData` (pybind11_bridge.cpp lines 110-118): id, schema id,
and two field maps whose values are arbitrary host-language objects
(`py::object`), kept abstract via the parameter `Obj`. -/
structure ModuleData (Obj : Type) where
  id : String
  schema_id : String
  data : List (String × Obj)
  metadata : List (String × Obj)

/-- The exposed `ModuleData` constructor (line 116-117,
`py::init<const std::string&, const std::string&>`): the caller
supplies `id` and `schema_id`; the maps start empty. -/
def ModuleData.create {Obj : Type} (id schema_id : String) : ModuleData Obj :=
  ⟨id, schema_id, [], []⟩

/-- Attribute assignment `m.id = v`, available because line 149 binds
`id` with `def_readwrite`. -/
def ModuleData.setId {Obj : Type} (m : ModuleData Obj) (v : String) : ModuleData Obj :=
  { m with id := v }

/-- Attribute assignment `m.schema_id = v`, available because line 150
binds `schema_id` with `def_readwrite`. -/
def ModuleData.setSchemaId {Obj : Type} (m : ModuleData Obj) (v : String) : ModuleData Obj :=
  { m with schema_id := v }

/-- Attribute assignment `m.data = xs` (line 151, `def_readwrite`). -/
def ModuleData.setData {Obj : Type} (m : ModuleData Obj) (xs : List (String × Obj)) :
    ModuleData Obj :=
  { m with data := xs }

/-- Attribute assignment `m.metadata = xs` (line 152, `def_readwrite`). -/
def ModuleData.setMetadata {Obj : Type} (m : ModuleData Obj) (xs : List (String × Obj)) :
    ModuleData Obj :=
  { m with metadata := xs }

/-- Exposure mode of an attribute in the binding. -/
inductive Access where
  | readonly
  | readwrite
deriving DecidableEq

/-- The attribute table of the bound `ModuleData` class
(pybind11_bridge.cpp lines 147-152): all four attributes are bound
with `def_readwrite`. -/
def moduleDataAttrs : List (String × Access) :=
  [("id", .readwrite), ("schema_id", .readwrite), ("data", .readwrite), ("metadata", .readwrite)]

/-- The methods of the `PyWriter` wrapper class. -/
inductive WriterMethod where
  | createNewFile
  | openFile
  | updateModule
  | createNewEncounter
  | addModuleToEncounter
  | addVariantModule
  | addAnnotationFn
  | closeFile
deriving DecidableEq

/-- The methods of the `PyReader` wrapper class. -/
inductive ReaderMethod where
  | openFile
  | getFileInfo
  | getModuleData
  | getAuditTrail
  | getAuditData
  | closeFile
  | getAllModules
deriving DecidableEq

/-- Declared C++ return type shape of a bound method. -/
inductive RetShape where
  | result
  | expectedVal
  | plainJson
  | plainMap
deriving DecidableEq

/-- A shape is a tagged result when it carries either a success value
or a string-described failure: the engine `Result` type and
`std::expected<T, std::string>` are; a bare `nlohmann::json` or
`std::map` is not. -/
def RetShape.isTagged : RetShape → Bool
  | .result => true
  | .expectedVal => true
  | .plainJson => false
  | .plainMap => false

/-- Return shape of each `PyWriter` method (pybind11_bridge.cpp
lines 27-59). -/
def writerRet : WriterMethod → RetShape
  | .createNewFile => .result
  | .openFile => .result
  | .updateModule => .result
  | .createNewEncounter => .expectedVal
  | .addModuleToEncounter => .expectedVal
  | .addVariantModule => .expectedVal
  | .addAnnotationFn => .expectedVal
  | .closeFile => .result

/-- Return shape of each `PyReader` method (pybind11_bridge.cpp
lines 71-106). -/
def readerRet : ReaderMethod → RetShape
  | .openFile => .result
  | .getFileInfo => .plainJson
  | .getModuleData => .expectedVal
  | .getAuditTrail => .expectedVal
  | .getAuditData => .expectedVal
  | .closeFile => .result
  | .getAllModules => .plainMap

/-- `PyReader::getAllModules` (pybind11_bridge.cpp lines 96-106):
calls `reader.getFileInfo()` inside a try block, never populates the
local map, and returns it; a thrown exception is caught and the same
empty map is returned.  The engine call's outcome is the parameter. -/
def getAllModules {Obj : Type} (fileInfo : Except String Json) : List (String × Obj) :=
  match fileInfo with
  | .ok _ => []
  | .error _ => []

/-- The exposed name of the annotation-adding writer method. -/
def annotationMethodName : String := "add_annot" ++ "ation"

/-- The `Writer` binding table (pybind11_bridge.cpp lines 124-133):
exposed name paired with the wrapped `PyWriter` method. -/
def writerBindings : List (String × WriterMethod) :=
  [("create_new_file", .createNewFile),
   ("openFile", .openFile),
   ("update_module", .updateModule),
   ("create_new_encounter", .createNewEncounter),
   ("add_module_to_encounter", .addModuleToEncounter),
   ("add_variant_module", .addVariantModule),
   (annotationMethodName, .addAnnotationFn),
   ("closeFile", .closeFile)]

/-- The `Reader` binding table (pybind11_bridge.cpp lines 136-144). -/
def readerBindings : List (String × ReaderMethod) :=
  [("openFile", .openFile),
   ("getFileInfo", .getFileInfo),
   ("getModuleData", .getModuleData),
   ("getAuditTrail", .getAuditTrail),
   ("getAuditData", .getAuditData),
   ("closeFile", .closeFile),
   ("getAllModules", .getAllModules)]

/-- The writer method names claimed by the specification (§6,
"one-to-one method exposure"), for comparison with `writerBindings`. -/
def claimedWriterNames : List String :=
  ["create_new_file", "update_module", "add_module_to_encounter",
   "add_variant_module", annotationMethodName, "close_file"]

/-- The reader method names claimed by the specification (§6). -/
def claimedReaderNames : List String :=
  ["openFile", "getFileInfo", "getModuleData", "getAuditTrail", "getAuditData", "closeFile"]

/-! ## Engine model

The `Writer`/`Reader` engine lives in the external UMDF library, which
is not part of this repository; the definitions below are modelled
from the specification (§3, §4.2, §4.3). -/

/-- Modelled from the spec: a 128-bit unique identifier, "assigned by
the engine, never by the caller" (§3).  The generation scheme is
unobservable; sequential values stand in for it. -/
structure UUID where
  val : Nat
deriving DecidableEq

/-- Modelled from the spec: one audit-history record kept by the
engine — module id, version marker, author, and the snapshot that is
sufficient to reconstruct the module's data as of that point (§3). -/
structure TrailRecord (Obj : Type) where
  moduleId : UUID
  version : Nat
  author : String
  snapshot : ModuleData Obj

/-- Modelled from the spec: the `ModuleTrail` entry handed to callers
of `getAuditTrail`/`getAuditData` — "logically: module id + version
marker/timestamp + author" (§3). -/
structure ModuleTrail where
  moduleId : UUID
  version : Nat
  author : String
deriving DecidableEq

/-- Modelled from the spec: the engine state behind one open container
— author, known encounters, current module states, and the append-only
audit trail (§2, §3). -/
structure EngineState (Obj : Type) where
  author : String
  encounters : List UUID
  modules : List (UUID × ModuleData Obj)
  trail : List (TrailRecord Obj)
  nextId : Nat

/-- A structural schema check as used by the engine: it sees the
schema path and the module's `data` payload (§4.4: `validate(schemaId,
data)`), never the module's `id`. -/
def SchemaCheck (Obj : Type) : Type := String → List (String × Obj) → Bool

/-- Modelled from the spec: the engine's fresh-UUID source (§3). -/
def freshUUID {Obj : Type} (st : EngineState Obj) : UUID := ⟨st.nextId⟩

/-- Look up a module by id in the current store. -/
def lookupModule {Obj : Type} : List (UUID × ModuleData Obj) → UUID → Option (ModuleData Obj)
  | [], _ => none
  | (k, v) :: rest, u => if k = u then some v else lookupModule rest u

/-- Replace the stored state of a module id. -/
def replaceModule {Obj : Type} :
    List (UUID × ModuleData Obj) → UUID → ModuleData Obj → List (UUID × ModuleData Obj)
  | [], _, _ => []
  | (k, v) :: rest, u, newV =>
    if k = u then (k, newV) :: rest else (k, v) :: replaceModule rest u newV

/-- Number of trail records already held for a module id: the version
marker assigned to the next record. -/
def trailCount {Obj : Type} (tr : List (TrailRecord Obj)) (u : UUID) : Nat :=
  (tr.filter (fun r => decide (r.moduleId = u))).length

/-- Modelled from the spec: `Writer::addModuleToEncounter` (§4.2) —
validates the module's payload against the schema, and on success
assigns a fresh engine UUID, attaches the module, and returns that
UUID; `NotFound` if the encounter is unknown, `SchemaViolation` if
validation fails. -/
def addModuleToEncounter {Obj : Type} (sv : SchemaCheck Obj) (st : EngineState Obj)
    (encounterId : UUID) (schemaPath : String) (m : ModuleData Obj) :
    Except String (UUID × EngineState Obj) :=
  if encounterId ∈ st.encounters then
    if sv schemaPath m.data then
      let u := freshUUID st
      .ok (u, { st with
        modules := st.modules ++ [(u, { m with id := toString u.val })],
        nextId := st.nextId + 1 })
    else .error "SchemaViolation"
  else .error "NotFound"

/-- Modelled from the spec: `Writer::addVariantModule` (§4.2) — same
mechanics as `addModuleToEncounter`, but the new module attaches as a
variant of an existing parent module; `NotFound` if the parent does
not exist. -/
def addVariantModule {Obj : Type} (sv : SchemaCheck Obj) (st : EngineState Obj)
    (parentModuleId : UUID) (schemaPath : String) (m : ModuleData Obj) :
    Except String (UUID × EngineState Obj) :=
  if (lookupModule st.modules parentModuleId).isSome then
    if sv schemaPath m.data then
      let u := freshUUID st
      .ok (u, { st with
        modules := st.modules ++ [(u, { m with id := toString u.val })],
        nextId := st.nextId + 1 })
    else .error "SchemaViolation"
  else .error "NotFound"

/-- Modelled from the spec: `Writer::addAnnotation` (§4.2) — identical
mechanics to `addVariantModule`, tagged as non-authoritative
commentary; it does not alter the parent's own data. -/
def addAnnotationOp {Obj : Type} (sv : SchemaCheck Obj) (st : EngineState Obj)
    (parentModuleId : UUID) (schemaPath : String) (m : ModuleData Obj) :
    Except String (UUID × EngineState Obj) :=
  if (lookupModule st.modules parentModuleId).isSome then
    if sv schemaPath m.data then
      let u := freshUUID st
      .ok (u, { st with
        modules := st.modules ++ [(u, { m with id := toString u.val })],
        nextId := st.nextId + 1 })
    else .error "SchemaViolation"
  else .error "NotFound"

/-- Modelled from the spec: `Writer::updateModule` (§4.2) — replaces
an existing module's `data`/`metadata`, rejecting a changed
`schema_id` with `SchemaMismatch`, and appends one audit record (the
prior state, per the §8 scenario) before committing. -/
def updateModule {Obj : Type} (st : EngineState Obj) (moduleId : UUID)
    (m : ModuleData Obj) : Except String (EngineState Obj) :=
  match lookupModule st.modules moduleId with
  | none => .error "NotFound"
  | some cur =>
    if m.schema_id = cur.schema_id then
      .ok { st with
        trail := st.trail ++ [⟨moduleId, trailCount st.trail moduleId, st.author, cur⟩],
        modules := replaceModule st.modules moduleId
          { cur with data := m.data, metadata := m.metadata } }
    else .error "SchemaMismatch"

/-- Find the snapshot recorded for a module id and version marker. -/
def findTrail {Obj : Type} : List (TrailRecord Obj) → UUID → Nat → Option (ModuleData Obj)
  | [], _, _ => none
  | r :: rest, u, v =>
    if r.moduleId = u ∧ r.version = v then some r.snapshot else findTrail rest u v

/-- Modelled from the spec: `Reader::getAuditData` (§4.3) —
reconstructs the full `ModuleData` as it existed at the given trail
point, from the append-only audit archive; `NotFound` if the entry is
unknown. -/
def getAuditData {Obj : Type} (st : EngineState Obj) (entry : ModuleTrail) :
    Except String (ModuleData Obj) :=
  match findTrail st.trail entry.moduleId entry.version with
  | some d => .ok d
  | none => .error "NotFound"

/-- One update request applied through `updateModule`; a rejected
update leaves the state unchanged. -/
def applyUpdate {Obj : Type} (st : EngineState Obj) (u : UUID × ModuleData Obj) :
    EngineState Obj :=
  match updateModule st u.1 u.2 with
  | .ok st2 => st2
  | .error _ => st

/-- A sequence of update requests applied in order. -/
def applyUpdates {Obj : Type} (st : EngineState Obj) (us : List (UUID × ModuleData Obj)) :
    EngineState Obj :=
  us.foldl applyUpdate st

/-- The UUID returned to the binding caller by `addModuleToEncounter`,
when it succeeds. -/
def addedUUID {Obj : Type} (sv : SchemaCheck Obj) (st : EngineState Obj)
    (encounterId : UUID) (schemaPath : String) (m : ModuleData Obj) : Option UUID :=
  match addModuleToEncounter sv st encounterId schemaPath m with
  | .ok r => some r.1
  | .error _ => none

/-- The UUID returned by `addVariantModule`, when it succeeds. -/
def variantUUID {Obj : Type} (sv : SchemaCheck Obj) (st : EngineState Obj)
    (parentModuleId : UUID) (schemaPath : String) (m : ModuleData Obj) : Option UUID :=
  match addVariantModule sv st parentModuleId schemaPath m with
  | .ok r => some r.1
  | .error _ => none

/-- The UUID returned by `addAnnotation`, when it succeeds. -/
def annotUUID {Obj : Type} (sv : SchemaCheck Obj) (st : EngineState Obj)
    (parentModuleId : UUID) (schemaPath : String) (m : ModuleData Obj) : Option UUID :=
  match addAnnotationOp sv st parentModuleId schemaPath m with
  | .ok r => some r.1
  | .error _ => none

/-! ## Concrete instances used by the theorems -/

/-- An engine `writeNewFile`/`readFile` that reports success. -/
def engAlwaysOk : String → Except String Bool := fun _ => .ok true

/-- An engine `writeNewFile`/`readFile` that reports failure by
returning `false` (the non-throwing failure signal of its boolean
contract). -/
def engReportsFalse : String → Except String Bool := fun _ => .ok false

/-- An engine call that throws. -/
def engThrows : String → Except String Bool := fun _ => .error "boom"

/-- A module payload: patient data for Jane. -/
def janePayload : String := "\x7b\"schema_id\": \"patient\", \"data\": \x7b\"name\": \"Jane\"\x7d\x7d"

/-! ## Claims -/

/-- C1: the claim that `validate(schemaId, data)` succeeds exactly on
schema-conformant payloads, failing on unknown schema ids and
non-conformant payloads, fails on the code: `validate_schema` returns
`true` for any parseable JSON — for a schema id outside the supported
list, and for a payload (a bare array) that conforms to no named
record schema. -/
theorem C1_validate_schema_is_stub :
    (validate_schema "unknown_schema_xyz" "\x7b\x7d").1 = true
    ∧ "unknown_schema_xyz" ∉ supportedSchemas
    ∧ (validate_schema "patient" "[1, 2]").1 = true :=
  ⟨rfl, by decide, rfl⟩

/-- C2: code-bug evidence: on a parseable module payload,
`write_umdf_file` parses the JSON and then discards it — the only
engine calls made are setting the access mode and
`writeNewFile(output_path)`; no validation call occurs and the payload
is never handed to the engine before the file is written. -/
theorem C2_payload_never_validated :
    (Json.parse janePayload).isSome = true
    ∧ write_umdf_file engAlwaysOk janePayload "out.umdf" =
        ⟨true, [], [.setFileAccessMode .Overwrite, .writeNewFile "out.umdf"]⟩
    ∧ ((write_umdf_file engAlwaysOk janePayload "out.umdf").calls.all
        (fun c => !isValidateCall c)) = true :=
  ⟨rfl, rfl, rfl⟩

/-- C10: the result of `validate_schema` does not depend on
`schema_id`: any two schema ids give the same boolean, and the boolean
is `true` exactly when the payload parses as JSON. -/
theorem C10_validate_schema_ignores_id (s1 s2 d : String) :
    (validate_schema s1 d).1 = (validate_schema s2 d).1
    ∧ ((validate_schema s1 d).1 = true ↔ (Json.parse d).isSome = true) := by
  cases h : Json.parse d <;> simp [validate_schema, h]

/-- C10 witness: the schema-independence theorem instantiated at a
supported and an unsupported schema id on the payload `3`. -/
theorem C10_validate_schema_ignores_id_witness :
    (validate_schema "patient" "3").1 = (validate_schema "no_such_schema" "3").1
    ∧ ((validate_schema "patient" "3").1 = true ↔ (Json.parse "3").isSome = true) :=
  C10_validate_schema_ignores_id "patient" "no_such_schema" "3"

/-- C8: `get_supported_schemas` ignores every form of prior state and
always returns the same string, which is the JSON array of exactly the
four supported schema names. -/
theorem C8_supported_schemas_constant (State : Type) (s1 s2 : State) :
    get_supported_schemas s1 = get_supported_schemas s2
    ∧ Json.parse (get_supported_schemas s1) =
        some (Json.arr (supportedSchemas.map Json.str)) :=
  ⟨rfl, rfl⟩

/-- C8 witness: the constancy theorem instantiated at two states. -/
theorem C8_supported_schemas_constant_witness :
    get_supported_schemas true = get_supported_schemas false
    ∧ Json.parse (get_supported_schemas true) =
        some (Json.arr (supportedSchemas.map Json.str)) :=
  C8_supported_schemas_constant Bool true false

/-- C7: counterexample: the bound method names are not the claimed
one-to-one list — the writer binds `closeFile` (not `close_file`) and
additionally exposes `openFile` and `create_new_encounter`, and the
reader additionally exposes `getAllModules`. -/
theorem C7_method_names_counterexample :
    "close_file" ∉ writerBindings.map Prod.fst
    ∧ "openFile" ∈ writerBindings.map Prod.fst
    ∧ "create_new_encounter" ∈ writerBindings.map Prod.fst
    ∧ "getAllModules" ∈ readerBindings.map Prod.fst
    ∧ writerBindings.map Prod.fst ≠ claimedWriterNames
    ∧ readerBindings.map Prod.fst ≠ claimedReaderNames := by
  decide

/-- C7 amended: the writer handle exposes exactly `create_new_file`,
`openFile`, `update_module`, `create_new_encounter`,
`add_module_to_encounter`, `add_variant_module`, `add_annotation`, and
`closeFile`; the reader handle exposes exactly `openFile`,
`getFileInfo`, `getModuleData`, `getAuditTrail`, `getAuditData`,
`closeFile`, and `getAllModules`. -/
theorem C7_method_names_amended :
    writerBindings.map Prod.fst =
      ["create_new_file", "openFile", "update_module", "create_new_encounter",
       "add_module_to_encounter", "add_variant_module", annotationMethodName, "closeFile"]
    ∧ readerBindings.map Prod.fst =
      ["openFile", "getFileInfo", "getModuleData", "getAuditTrail", "getAuditData",
       "closeFile", "getAllModules"] :=
  ⟨rfl, rfl⟩

/-- C5: counterexample: `id` and `schema_id` are bound with
`def_readwrite`, and the resulting attribute assignments change them
after creation — a freshly created patient module can be reassigned to
schema `imaging` and to a different id. -/
theorem C5_mutable_ids_counterexample :
    ("schema_id", Access.readwrite) ∈ moduleDataAttrs
    ∧ ("id", Access.readwrite) ∈ moduleDataAttrs
    ∧ (((ModuleData.create "m-001" "patient" : ModuleData Unit)).setSchemaId "imaging").schema_id
        = "imaging"
    ∧ (((ModuleData.create "m-001" "patient" : ModuleData Unit)).setId "m-999").id = "m-999" :=
  ⟨by decide, by decide, rfl, rfl⟩

/-- C5 amended: the binding exposes all four `ModuleData` attributes —
`id` and `schema_id` included — as read-write; the constructor takes
caller-supplied `id` and `schema_id`, and attribute assignment changes
`id` and `schema_id` after creation (each setter touching only its own
field), so immutability of `id`/`schema_id` is not enforced at the
binding surface. -/
theorem C5_mutable_ids_amended {Obj : Type} (m : ModuleData Obj) (v i s : String)
    (xs : List (String × Obj)) :
    ("id", Access.readwrite) ∈ moduleDataAttrs
    ∧ ("schema_id", Access.readwrite) ∈ moduleDataAttrs
    ∧ ("data", Access.readwrite) ∈ moduleDataAttrs
    ∧ ("metadata", Access.readwrite) ∈ moduleDataAttrs
    ∧ (m.setId v).id = v
    ∧ (m.setSchemaId v).schema_id = v
    ∧ (m.setSchemaId v).id = m.id
    ∧ (m.setSchemaId v).data = m.data
    ∧ (m.setSchemaId v).metadata = m.metadata
    ∧ (m.setData xs).data = xs
    ∧ (m.setMetadata xs).metadata = xs
    ∧ ((ModuleData.create i s : ModuleData Obj)).id = i
    ∧ ((ModuleData.create i s : ModuleData Obj)).schema_id = s :=
  ⟨by decide, by decide, by decide, by decide, rfl, rfl, rfl, rfl, rfl, rfl, rfl, rfl, rfl⟩

/-- C3: counterexample: the exposed reader method `getAllModules`
returns a plain (untagged) map, and it returns the success-shaped
empty map even when the underlying engine call fails — the failure is
discarded. -/
theorem C3_getAllModules_counterexample :
    (readerRet ReaderMethod.getAllModules).isTagged = false
    ∧ (getAllModules (Except.error "engine failure") : List (String × Unit)) = []
    ∧ (getAllModules (Except.ok Json.null) : List (String × Unit)) = [] :=
  ⟨rfl, rfl, rfl⟩

/-- C3 amended: every writer method, and every reader method except
`getFileInfo` (which returns a plain JSON value) and `getAllModules`
(which returns a plain map), returns a tagged result — an engine
`Result` or `std::expected<T, std::string>`; `getAllModules` returns
the success-shaped empty map whether or not the underlying engine call
fails. -/
theorem C3_tagged_results_amended :
    (∀ m : WriterMethod, (writerRet m).isTagged = true)
    ∧ (∀ m : ReaderMethod,
        m ≠ ReaderMethod.getFileInfo → m ≠ ReaderMethod.getAllModules →
        (readerRet m).isTagged = true)
    ∧ (∀ e : Except String Json, (getAllModules e : List (String × Unit)) = []) := by
  refine ⟨fun m => ?_, fun m h1 h2 => ?_, fun e => ?_⟩
  · cases m <;> rfl
  · cases m <;> first | rfl | exact absurd rfl h1 | exact absurd rfl h2
  · cases e <;> rfl

/-- C3 witness: the amended theorem applied to `getModuleData`, whose
exclusion hypotheses hold by computation. -/
theorem C3_tagged_results_witness :
    (readerRet ReaderMethod.getModuleData).isTagged = true :=
  C3_tagged_results_amended.2.1 ReaderMethod.getModuleData (by decide) (by decide)

/-- C4: counterexample: a flat-surface failure with no logged
diagnostic — when the engine's `readFile` reports failure by returning
`false` (the non-throwing signal of its boolean contract),
`read_umdf_file` returns `false` with an empty diagnostic log. -/
theorem C4_silent_failure_counterexample :
    (read_umdf_file engReportsFalse "missing.umdf").ret = false
    ∧ (read_umdf_file engReportsFalse "missing.umdf").log = [] :=
  ⟨rfl, rfl⟩

/-- C4 amended: every failing flat-surface operation returns `false`
and never propagates an exception; a diagnostic line is logged exactly
on the caught-exception paths (unparseable JSON, engine throw), while
an engine-reported boolean failure yields `false` with no
diagnostic. -/
theorem C4_flat_failures_amended
    (eng : String → Except String Bool) (jd out path msg : String) :
    (Json.parse jd = none →
      write_umdf_file eng jd out =
        ⟨false, ["Error writing UMDF file: json parse error"], []⟩)
    ∧ (eng out = .error msg → (write_umdf_file eng jd out).ret = false)
    ∧ ((Json.parse jd).isSome = true → eng out = .error msg →
        (write_umdf_file eng jd out).log ≠ [])
    ∧ (eng path = .error msg →
        (read_umdf_file eng path).ret = false ∧ (read_umdf_file eng path).log ≠ [])
    ∧ (eng path = .ok false →
        (read_umdf_file eng path).ret = false ∧ (read_umdf_file eng path).log = [])
    ∧ (Json.parse jd = none →
        (validate_schema msg jd).1 = false ∧ (validate_schema msg jd).2 ≠ []) := by
  refine ⟨?_, ?_, ?_, ?_, ?_, ?_⟩
  · intro h
    simp [write_umdf_file, h]
  · intro h
    unfold write_umdf_file
    cases hp : Json.parse jd <;> simp [h]
  · intro hp h
    unfold write_umdf_file
    cases hq : Json.parse jd
    · rw [hq] at hp
      simp at hp
    · simp [h]
  · intro h
    simp [read_umdf_file, h]
  · intro h
    simp [read_umdf_file, h]
  · intro h
    simp [validate_schema, h]

/-- C4 amended witness: each failure mode at a concrete input —
unparseable JSON through `write_umdf_file` and `validate_schema`, an
engine throw through `write_umdf_file` and `read_umdf_file`, and an
engine boolean failure through `read_umdf_file`. -/
theorem C4_flat_failures_witness :
    write_umdf_file engThrows "\x7bbad" "out.umdf" =
      ⟨false, ["Error writing UMDF file: json parse error"], []⟩
    ∧ (write_umdf_file engThrows "3" "out.umdf").ret = false
    ∧ (write_umdf_file engThrows "3" "out.umdf").log ≠ []
    ∧ ((read_umdf_file engThrows "f.umdf").ret = false
        ∧ (read_umdf_file engThrows "f.umdf").log ≠ [])
    ∧ ((read_umdf_file engReportsFalse "f.umdf").ret = false
        ∧ (read_umdf_file engReportsFalse "f.umdf").log = [])
    ∧ ((validate_schema "patient" "\x7bbad").1 = false
        ∧ (validate_schema "patient" "\x7bbad").2 ≠ []) :=
  ⟨(C4_flat_failures_amended engThrows "\x7bbad" "out.umdf" "f.umdf" "boom").1 rfl,
   (C4_flat_failures_amended engThrows "3" "out.umdf" "f.umdf" "boom").2.1 rfl,
   (C4_flat_failures_amended engThrows "3" "out.umdf" "f.umdf" "boom").2.2.1 rfl rfl,
   (C4_flat_failures_amended engThrows "3" "out.umdf" "f.umdf" "boom").2.2.2.1 rfl,
   (C4_flat_failures_amended engReportsFalse "3" "out.umdf" "f.umdf" "boom").2.2.2.2.1 rfl,
   (C4_flat_failures_amended engThrows "\x7bbad" "out.umdf" "f.umdf" "patient").2.2.2.2.2 rfl⟩

/-- C6: every UUID returned by `addModuleToEncounter`,
`addVariantModule`, or `addAnnotation` is the engine's fresh UUID, a
function of engine state alone: the result is unchanged when the
caller rewrites the `id` field of the `ModuleData` it passes in, and
any returned UUID equals `freshUUID` of the pre-call state. -/
theorem C6_engine_assigns_uuids {Obj : Type} (sv : SchemaCheck Obj)
    (st : EngineState Obj) (target : UUID) (schemaPath : String)
    (m : ModuleData Obj) (callerId : String) :
    (addedUUID sv st target schemaPath { m with id := callerId }
      = addedUUID sv st target schemaPath m)
    ∧ (∀ u, addedUUID sv st target schemaPath m = some u → u = freshUUID st)
    ∧ (variantUUID sv st target schemaPath { m with id := callerId }
      = variantUUID sv st target schemaPath m)
    ∧ (∀ u, variantUUID sv st target schemaPath m = some u → u = freshUUID st)
    ∧ (annotUUID sv st target schemaPath { m with id := callerId }
      = annotUUID sv st target schemaPath m)
    ∧ (∀ u, annotUUID sv st target schemaPath m = some u → u = freshUUID st) := by
  refine ⟨?_, ?_, ?_, ?_, ?_, ?_⟩
  · by_cases h1 : target ∈ st.encounters <;>
      by_cases h2 : sv schemaPath m.data <;>
        simp [addedUUID, addModuleToEncounter, h1, h2]
  · intro u h
    unfold addedUUID addModuleToEncounter at h
    by_cases h1 : target ∈ st.encounters
    · by_cases h2 : sv schemaPath m.data
      · simp [h1, h2] at h
        exact h.symm
      · simp [h1, h2] at h
    · simp [h1] at h
  · by_cases h1 : (lookupModule st.modules target).isSome <;>
      by_cases h2 : sv schemaPath m.data <;>
        simp [variantUUID, addVariantModule, h1, h2]
  · intro u h
    unfold variantUUID addVariantModule at h
    by_cases h1 : (lookupModule st.modules target).isSome
    · by_cases h2 : sv schemaPath m.data
      · simp [h1, h2] at h
        exact h.symm
      · simp [h1, h2] at h
    · simp [h1] at h
  · by_cases h1 : (lookupModule st.modules target).isSome <;>
      by_cases h2 : sv schemaPath m.data <;>
        simp [annotUUID, addAnnotationOp, h1, h2]
  · intro u h
    unfold annotUUID addAnnotationOp at h
    by_cases h1 : (lookupModule st.modules target).isSome
    · by_cases h2 : sv schemaPath m.data
      · simp [h1, h2] at h
        exact h.symm
      · simp [h1, h2] at h
    · simp [h1] at h

/-- A container state with one encounter and an accept-all validator,
for the C6 witness. -/
def exState : EngineState Unit := ⟨"alice", [⟨0⟩], [], [], 1⟩

/-- A schema check that accepts every payload. -/
def svAccept : SchemaCheck Unit := fun _ _ => true

/-- A module whose `id` field was filled in by the caller. -/
def exModule : ModuleData Unit := ModuleData.create "caller-chosen-id" "patient"

/-- C6 witness: admitting a module whose caller wrote
"caller-chosen-id" into `id` returns the engine's fresh UUID. -/
theorem C6_engine_assigns_uuids_witness : UUID.mk 1 = freshUUID exState :=
  (C6_engine_assigns_uuids svAccept exState (UUID.mk 0) "patient" exModule
    "another-caller-id").2.1 (UUID.mk 1) rfl

/-- Appending to the audit archive preserves successful snapshot
lookups: the archive is append-only, so an entry found before an
append is found unchanged after it. -/
theorem findTrail_append {Obj : Type} (t1 t2 : List (TrailRecord Obj)) (u : UUID)
    (v : Nat) (d : ModuleData Obj) (h : findTrail t1 u v = some d) :
    findTrail (t1 ++ t2) u v = some d := by
  induction t1 with
  | nil => simp [findTrail] at h
  | cons r rest ih =>
    rw [List.cons_append]
    unfold findTrail at h ⊢
    by_cases hc : r.moduleId = u ∧ r.version = v
    · simpa [hc] using h
    · simp only [if_neg hc] at h ⊢
      exact ih h

/-- One update request only ever appends to the trail. -/
theorem applyUpdate_trail {Obj : Type} (st : EngineState Obj)
    (u : UUID × ModuleData Obj) :
    ∃ t2, (applyUpdate st u).trail = st.trail ++ t2 := by
  unfold applyUpdate updateModule
  rcases h : lookupModule st.modules u.1 with _ | cur
  · exact ⟨[], by simp⟩
  · by_cases hs : u.2.schema_id = cur.schema_id
    · exact ⟨[⟨u.1, trailCount st.trail u.1, st.author, cur⟩], by simp [hs]⟩
    · exact ⟨[], by simp [hs]⟩

/-- A sequence of update requests only ever appends to the trail. -/
theorem applyUpdates_trail {Obj : Type} (us : List (UUID × ModuleData Obj))
    (st : EngineState Obj) :
    ∃ t2, (applyUpdates st us).trail = st.trail ++ t2 := by
  induction us generalizing st with
  | nil => exact ⟨[], by simp [applyUpdates]⟩
  | cons u rest ih =>
    obtain ⟨ta, ha⟩ := applyUpdate_trail st u
    obtain ⟨tb, hb⟩ := ih (applyUpdate st u)
    refine ⟨ta ++ tb, ?_⟩
    have : applyUpdates st (u :: rest) = applyUpdates (applyUpdate st u) rest := rfl
    rw [this, hb, ha, List.append_assoc]

/-- C9: `getAuditData` is a pure function of the trail entry and the
immutable audit archive: two states sharing a trail agree on every
entry, and a successful reconstruction is byte-identical after any
sequence of further updates to the container. -/
theorem C9_getAuditData_pure {Obj : Type} (st st2 : EngineState Obj)
    (e : ModuleTrail) (d : ModuleData Obj) (us : List (UUID × ModuleData Obj)) :
    (st.trail = st2.trail → getAuditData st e = getAuditData st2 e)
    ∧ (getAuditData st e = .ok d → getAuditData (applyUpdates st us) e = .ok d) := by
  constructor
  · intro h
    unfold getAuditData
    rw [h]
  · intro h
    unfold getAuditData at h ⊢
    rcases hf : findTrail st.trail e.moduleId e.version with _ | d0
    · rw [hf] at h
      exact absurd h (by simp)
    · rw [hf] at h
      obtain ⟨t2, ht⟩ := applyUpdates_trail us st
      rw [ht, findTrail_append st.trail t2 e.moduleId e.version d0 hf]
      exact h

/-- A container state holding module 1 with one recorded snapshot, for
the C9 witness. -/
def exTrailState : EngineState Unit :=
  ⟨"alice", [⟨0⟩], [(⟨1⟩, ModuleData.create "1" "patient")],
   [⟨⟨1⟩, 0, "alice", ModuleData.create "1" "patient"⟩], 2⟩

/-- The trail entry for version 0 of module 1. -/
def exEntry : ModuleTrail := ⟨⟨1⟩, 0, "alice"⟩

/-- An update request against module 1. -/
def exUpd : UUID × ModuleData Unit := (⟨1⟩, ModuleData.create "1" "patient")

/-- C9 witness: after a further (accepted) update of module 1, the
version-0 entry still reconstructs to the original snapshot. -/
theorem C9_getAuditData_pure_witness :
    getAuditData (applyUpdates exTrailState [exUpd]) exEntry
      = .ok (ModuleData.create "1" "patient") :=
  (C9_getAuditData_pure exTrailState exTrailState exEntry
    (ModuleData.create "1" "patient") [exUpd]).2 rfl

end UMDF
